import Mathlib

/-!
Shallow embedding of the voice-command MCP server
(src/mcp_server/speech_engines.py and src/mcp_server/voice_server.py).

Effectful calls into external SDKs (audio capture, per-backend network
recognition, environment variables) are modelled as explicit parameters:
a recognition attempt on backend b with the captured audio is the value
`rec b : Except String RecognitionResult`, where `Except.error msg`
models the Python call raising an exception whose `str` is `msg`.
Python dicts are modelled as association lists in insertion order.
-/

/-- src/mcp_server/speech_engines.py, class RecognitionBackend(Enum):
the closed set of backend identifiers. -/
inductive RecognitionBackend where
  | elevenlabs
  | google
  | whisper
  | openai
deriving DecidableEq

/-- The `.value` string of each enum member (ELEVENLABS = "elevenlabs", etc.). -/
def RecognitionBackend.value : RecognitionBackend → String
  | .elevenlabs => "elevenlabs"
  | .google => "google"
  | .whisper => "whisper"
  | .openai => "openai"

/-- Models the Enum value-lookup `RecognitionBackend(s)` combined with the
guard `s in [e.value for e in RecognitionBackend]` used in MultiEngine.__init__:
returns the member whose value is `s`, or `none` when `s` names no member. -/
def backendOfString (s : String) : Option RecognitionBackend :=
  if s = "elevenlabs" then some .elevenlabs
  else if s = "google" then some .google
  else if s = "whisper" then some .whisper
  else if s = "openai" then some .openai
  else none

/-- src/mcp_server/speech_engines.py, @dataclass RecognitionResult.
`confidence` and `processing_time` are Python floats; they are carried as
rationals since no claim computes with them. `metadata` is a free-form dict,
carried as an optional association list. -/
structure RecognitionResult where
  text : String
  confidence : Rat
  backend : RecognitionBackend
  processing_time : Rat
  metadata : Option (List (String × String)) := none
deriving DecidableEq

/-- A speech-engine instance as seen by MultiEngine: its `available` flag
(set by each engine class constructor) and its Python class name
(read by get_engine_status as eng.__class__.__name__). -/
structure Engine where
  available : Bool
  cls : String
deriving DecidableEq

/-- The environment and SDK-probe outcomes that MultiEngine.__init__ reads:
os.getenv values (None when unset) and whether each optional SDK
import/initialization succeeds. GoogleEngine sets available = True
unconditionally, so it needs no probe flag. -/
structure Env where
  elevenlabs_api_key : Option String
  elevenlabs_ok : Bool
  whisper_ok : Bool
  voice_backend : Option String
  voice_fallback : Option String
deriving DecidableEq

/-- Python str.lower(), modelled characterwise over the underlying character
list (identical to .lower() on the ASCII configuration strings involved). -/
def pyLower (s : String) : String := ⟨s.data.map Char.toLower⟩

/-- Python truthiness of an os.getenv result: truthy iff set and non-empty. -/
def strTruthy : Option String → Bool
  | some s => !s.isEmpty
  | none => false

/-- src/mcp_server/speech_engines.py, class MultiEngine state after __init__:
the availability mapping (a dict, modelled as an association list in
insertion order) and the configured primary/fallback backends. -/
structure MultiEngine where
  engines : List (RecognitionBackend × Engine)
  primary : Option RecognitionBackend
  fallback : Option RecognitionBackend
deriving DecidableEq

/-- MultiEngine.__init__ (speech_engines.py lines 224-247): registers
ElevenLabs only when ELEVENLABS_API_KEY is truthy, always constructs the
Google and Whisper engines, prunes the mapping to engines whose `available`
flag is true, and resolves VOICE_BACKEND / VOICE_FALLBACK (defaults
"elevenlabs" / "google", lowercased) to enum members, or None when the
string names no member. -/
def MultiEngine.ofEnv (env : Env) : MultiEngine :=
  let base : List (RecognitionBackend × Engine) :=
    (if strTruthy env.elevenlabs_api_key then
       [(RecognitionBackend.elevenlabs, ⟨env.elevenlabs_ok, "ElevenLabsEngine"⟩)]
     else []) ++
    [(RecognitionBackend.google, ⟨true, "GoogleEngine"⟩),
     (RecognitionBackend.whisper, ⟨env.whisper_ok, "WhisperEngine"⟩)]
  let engines := base.filter (fun p => p.2.available)
  let primary := backendOfString (pyLower (env.voice_backend.getD "elevenlabs"))
  let fallback := backendOfString (pyLower (env.voice_fallback.getD "google"))
  ⟨engines, primary, fallback⟩

/-- The keys of the availability mapping, in dict-iteration order. -/
def MultiEngine.backends (me : MultiEngine) : List RecognitionBackend :=
  me.engines.map Prod.fst

/-- One guarded configured-backend attempt of recognize_with_fallback
(the primary block, lines 266-272, and the structurally identical fallback
block, lines 275-281): if the candidate is set (Python truthiness of the
enum member) and is a key of the mapping, call its recognize; an exception
is caught and treated as failure. Returns the list of recognize invocations
made and the successful result, if any. -/
def tryConfigured (engines : List (RecognitionBackend × Engine))
    (rec : RecognitionBackend → Except String RecognitionResult) :
    Option RecognitionBackend → List RecognitionBackend × Option RecognitionResult
  | none => ([], none)
  | some b =>
    if (engines.lookup b).isSome then
      match rec b with
      | .ok r => ([b], some r)
      | .error _ => ([b], none)
    else ([], none)

/-- The remaining-engines loop of recognize_with_fallback (lines 284-291):
iterate the mapping in order, skipping any key equal to the configured
primary or fallback (Python `backend not in [self.primary, self.fallback]`;
an enum member never equals None); call recognize on each, catching
exceptions, returning on the first success. Returns the invocation trace
and the successful result, if any. -/
def tryRemaining (primary fallback : Option RecognitionBackend)
    (rec : RecognitionBackend → Except String RecognitionResult) :
    List (RecognitionBackend × Engine) → List RecognitionBackend × Option RecognitionResult
  | [] => ([], none)
  | (b, _) :: rest =>
    if primary == some b || fallback == some b then
      tryRemaining primary fallback rec rest
    else
      match rec b with
      | .ok r => ([b], some r)
      | .error _ =>
        let t := tryRemaining primary fallback rec rest
        (b :: t.1, t.2)

/-- MultiEngine.recognize_with_fallback (lines 262-293), instrumented with
the trace of recognize invocations: primary phase, then fallback phase,
then the remaining-engines loop, then the terminal
`raise Exception("All recognition engines failed")`. The returned pair is
(invocation trace, overall outcome). -/
def recognizeWithFallbackTrace (me : MultiEngine)
    (rec : RecognitionBackend → Except String RecognitionResult) :
    List RecognitionBackend × Except String RecognitionResult :=
  let p1 := tryConfigured me.engines rec me.primary
  match p1.2 with
  | some r => (p1.1, .ok r)
  | none =>
    let p2 := tryConfigured me.engines rec me.fallback
    match p2.2 with
    | some r => (p1.1 ++ p2.1, .ok r)
    | none =>
      let p3 := tryRemaining me.primary me.fallback rec me.engines
      match p3.2 with
      | some r => (p1.1 ++ p2.1 ++ p3.1, .ok r)
      | none => (p1.1 ++ p2.1 ++ p3.1, .error "All recognition engines failed")

/-- The outcome of MultiEngine.recognize_with_fallback: the first successful
RecognitionResult, or the terminal exception. -/
def MultiEngine.recognize_with_fallback (me : MultiEngine)
    (rec : RecognitionBackend → Except String RecognitionResult) :
    Except String RecognitionResult :=
  (recognizeWithFallbackTrace me rec).2

/-- The backends on which recognize_with_fallback actually invokes
recognize, in invocation order. -/
def fallbackAttempts (me : MultiEngine)
    (rec : RecognitionBackend → Except String RecognitionResult) :
    List RecognitionBackend :=
  (recognizeWithFallbackTrace me rec).1

/-- The candidate contributed by a configured-backend phase: the candidate
itself when it is set and registered, nothing otherwise. -/
def confSeg (engines : List (RecognitionBackend × Engine)) :
    Option RecognitionBackend → List RecognitionBackend
  | some b => if (engines.lookup b).isSome then [b] else []
  | none => []

/-- The candidates of the remaining-engines loop: the mapping keys in
iteration order, skipping keys equal to the configured primary or fallback. -/
def remSeg (primary fallback : Option RecognitionBackend)
    (engines : List (RecognitionBackend × Engine)) : List RecognitionBackend :=
  (engines.map Prod.fst).filter (fun b => !(primary == some b || fallback == some b))

/-- The candidate order the coordinator follows: the configured primary if
registered, then the configured fallback if registered (no distinctness
check appears in the source), then the remaining keys in mapping-iteration
order, skipping keys equal to the primary or the fallback. -/
def candidateOrder (me : MultiEngine) : List RecognitionBackend :=
  confSeg me.engines me.primary ++
    (confSeg me.engines me.fallback ++ remSeg me.primary me.fallback me.engines)

/-- First-success-wins execution over an explicit candidate list: attempt
each backend in order, catching failures, stopping at the first success;
raise the terminal error after exhaustion. Returns (trace, outcome). -/
def runAttempts (rec : RecognitionBackend → Except String RecognitionResult) :
    List RecognitionBackend → List RecognitionBackend × Except String RecognitionResult
  | [] => ([], .error "All recognition engines failed")
  | b :: rest =>
    match rec b with
    | .ok r => ([b], .ok r)
    | .error _ =>
      let t := runAttempts rec rest
      (b :: t.1, t.2)

/-- Whether a modelled recognize call raised. -/
def recFails : Except String RecognitionResult → Bool
  | .error _ => true
  | .ok _ => false

/-!
Embedding of the MCP tool layer (src/mcp_server/voice_server.py). Each tool
returns a JSON object, modelled as an association list of string keys and
JSON values. Fallible external calls (get_speech_engine, audio capture,
microphone enumeration, calibration) are explicit Except-valued parameters.
-/

/-- One entry of the list built by MultiEngine.list_available_microphones:
a device index, its name, and whether it is the default device. -/
structure Device where
  index : Nat
  name : String
  dflt : Bool
deriving DecidableEq

/-- A JSON value as produced by the tools of voice_server.py. The shapes are
exactly those the tools build: scalars, a list of backend-value strings, a
list of devices, and the engine_details object mapping a backend value to
its (available, class name) pair. -/
inductive JValue where
  | null
  | bool (b : Bool)
  | str (s : String)
  | num (q : Rat)
  | strList (l : List String)
  | devList (l : List Device)
  | detailList (l : List (String × Bool × String))
deriving DecidableEq

/-- A JSON object in insertion order. -/
abbrev JObject := List (String × JValue)

/-- An optional integer rendered as JSON (None becomes null). -/
def optNatJ : Option Nat → JValue
  | some n => .num n
  | none => .null

/-- An optional backend rendered as its value string, or null
(`engine.primary.value if engine.primary else None`). -/
def optBackendJ : Option RecognitionBackend → JValue
  | some b => .str b.value
  | none => .null

/-- A single-quote character as a string, for Python repr-style messages. -/
def pyQuote : String := "\x27"

/-- Python repr of a list of strings, as interpolated by the f-string in
transcribe_once: e.g. [\x27google\x27, \x27whisper\x27]. -/
def pyStrListRepr (l : List String) : String :=
  "[" ++ String.intercalate ", " (l.map (fun s => pyQuote ++ s ++ pyQuote)) ++ "]"

/-- voice_server.py, ping (lines 75-81): pure echo, no fallible call. -/
def ping (payload : JValue) : JObject :=
  [("ok", .bool true), ("echo", payload), ("server", .str "Claude Voice Commands")]

/-- speech_engines.py, MultiEngine.list_available_microphones (lines
295-304): pairs each enumerated device name with its index and whether that
index equals the device_index of a freshly constructed default microphone. -/
def list_available_microphones (names : List String) (defaultIdx : Option Nat) :
    List Device :=
  names.enum.map (fun p => ⟨p.1, p.2, defaultIdx == some p.1⟩)

/-- speech_engines.py, MultiEngine.test_microphone (lines 306-334):
`probe` models the try-block of ambient-noise adjustment plus capture,
yielding the measured energy threshold, or the raised exception. `micIndex`
models the device_index attribute of the configured microphone. -/
def MultiEngine.test_microphone (micIndex : Option Nat)
    (probe : Except String Rat) (duration : Rat) : JObject :=
  match probe with
  | .ok energy =>
    [("success", .bool true),
     ("microphone_index", optNatJ micIndex),
     ("energy_threshold", .num energy),
     ("audio_captured", .bool true),
     ("audio_duration", .num duration)]
  | .error e =>
    [("success", .bool false),
     ("error", .str e),
     ("microphone_index", .str "unknown")]

/-- voice_server.py, test_microphone tool (lines 83-113): obtains the engine
(getEngine models get_speech_engine, which raises when speech components are
missing), delegates to MultiEngine.test_microphone (which catches its own
exceptions), and converts a tool-level exception into the failure payload. -/
def test_microphone (getEngine : Except String MultiEngine)
    (micIndex : Option Nat) (probe : Except String Rat) (duration : Rat) : JObject :=
  match getEngine with
  | .ok _ => MultiEngine.test_microphone micIndex probe duration
  | .error e =>
    [("success", .bool false),
     ("error", .str ("Microphone test failed: " ++ e)),
     ("microphone_index", .str "unknown")]

/-- voice_server.py, calibrate_audio tool (lines 198-244): engine lookup,
engine.calibrate_microphone, then a fresh ambient-noise adjustment whose
threshold is reported. `fmt` models Python float formatting with :.1f.
Any raised exception becomes the failure payload. -/
def calibrate_audio (getEngine : Except String MultiEngine)
    (calibrate : Except String Unit) (adjust : Except String Rat)
    (fmt : Rat → String) (duration : Rat) : JObject :=
  match getEngine.bind (fun _ => calibrate.bind (fun _ => adjust)) with
  | .ok thr =>
    [("success", .bool true),
     ("energy_threshold", .num thr),
     ("duration", .num duration),
     ("message", .str ("Microphone calibrated successfully (threshold: " ++ fmt thr ++ ")"))]
  | .error e =>
    [("success", .bool false),
     ("error", .str ("Calibration failed: " ++ e))]

/-- voice_server.py, list_audio_devices tool (lines 246-283): engine lookup,
device enumeration (micNames models sr.Microphone.list_microphone_names),
default-device scan (first device whose default flag is truthy), success
payload; any raised exception becomes the error payload, which carries no
success key. -/
def list_audio_devices (getEngine : Except String MultiEngine)
    (micNames : Except String (List String)) (defaultIdx : Option Nat) : JObject :=
  match getEngine.bind (fun _ => micNames) with
  | .ok names =>
    let devices := list_available_microphones names defaultIdx
    let dd := (devices.find? (fun d => d.dflt)).map Device.index
    [("devices", .devList devices),
     ("default_device", optNatJ dd),
     ("total_count", .num devices.length)]
  | .error e =>
    [("error", .str ("Failed to list audio devices: " ++ e)),
     ("devices", .devList []),
     ("total_count", .num 0)]

/-- Python truthiness of `key and key.strip()` in get_engine_status:
the ELEVENLABS_API_KEY is configured iff set, non-empty, and non-blank. -/
def elevenlabsConfigured : Option String → Bool
  | some k => !k.isEmpty && !k.trim.isEmpty
  | none => false

/-- voice_server.py, get_engine_status tool (lines 285-332): on success,
reports the mapping keys as available_engines, the configured primary and
fallback (null when unset), the API-key flag, per-engine details, and the
engine count; any raised exception becomes the error payload, which carries
no success key. -/
def get_engine_status (getEngine : Except String MultiEngine)
    (elevenKey : Option String) : JObject :=
  match getEngine with
  | .ok me =>
    [("available_engines", .strList (me.engines.map (fun p => p.1.value))),
     ("primary_engine", optBackendJ me.primary),
     ("fallback_engine", optBackendJ me.fallback),
     ("elevenlabs_api_configured", .bool (elevenlabsConfigured elevenKey)),
     ("engine_details", .detailList (me.engines.map (fun p => (p.1.value, p.2.available, p.2.cls)))),
     ("total_engines", .num me.engines.length)]
  | .error e =>
    [("error", .str ("Failed to get engine status: " ++ e)),
     ("available_engines", .strList []),
     ("total_engines", .num 0)]

/-- Outcome of the audio-capture block of transcribe_once: captured audio,
sr.WaitTimeoutError, or another exception. -/
inductive CaptureOutcome where
  | ok
  | waitTimeout
  | err (msg : String)
deriving DecidableEq

/-- A fault flowing to the except-handlers of transcribe_once: the
sr.WaitTimeoutError handler or the generic Exception handler. -/
inductive TranscribeFault where
  | timeout
  | exn (msg : String)
deriving DecidableEq

/-- Reraise a modelled Python exception as a generic transcribe fault. -/
def exnify {α : Type} : Except String α → Except TranscribeFault α
  | .ok a => .ok a
  | .error m => .error (.exn m)

/-- The backend-dispatch block of transcribe_once (voice_server.py lines
152-166): with a truthy backend string, resolve it against the enum
(ValueError is re-raised as the Invalid-backend exception), require it to be
registered (else the not-available exception), and call that engine alone;
otherwise delegate to recognize_with_fallback. -/
def transcribeCore (me : MultiEngine)
    (rec : RecognitionBackend → Except String RecognitionResult)
    (backend : Option String) : Except TranscribeFault RecognitionResult :=
  match backend with
  | some bs =>
    if bs.isEmpty then exnify (me.recognize_with_fallback rec)
    else
      match backendOfString (pyLower bs) with
      | some be =>
        if (me.engines.lookup be).isSome then exnify (rec be)
        else .error (.exn ("Backend " ++ pyQuote ++ bs ++ pyQuote ++ " not available"))
      | none =>
        .error (.exn ("Invalid backend: " ++ bs ++ ". Available: " ++
          pyStrListRepr (me.engines.map (fun p => p.1.value))))
  | none => exnify (me.recognize_with_fallback rec)

/-- The success payload of transcribe_once (voice_server.py lines 168-175);
ts models datetime.now().isoformat(). -/
def transcribeSuccess (r : RecognitionResult) (ts : String) : JObject :=
  [("success", .bool true),
   ("text", .str r.text),
   ("backend", .str r.backend.value),
   ("confidence", .num r.confidence),
   ("processing_time", .num r.processing_time),
   ("timestamp", .str ts)]

/-- The sr.WaitTimeoutError payload of transcribe_once (lines 180-188). -/
def transcribeTimeout : JObject :=
  [("success", .bool false),
   ("error", .str "No speech detected within timeout period"),
   ("text", .str ""),
   ("timeout", .bool true)]

/-- The audio-capture block of transcribe_once (voice_server.py lines
138-148) as the fault it raises, if any. -/
def captureExcept : CaptureOutcome → Except TranscribeFault Unit
  | .ok => .ok ()
  | .waitTimeout => .error .timeout
  | .err m => .error (.exn m)

/-- The except-handlers of transcribe_once (voice_server.py lines 168-196):
a recognition result becomes the success payload, sr.WaitTimeoutError the
timeout payload, and any other exception the generic failure payload. -/
def transcribeDispatch (body : Except TranscribeFault RecognitionResult)
    (ts : String) : JObject :=
  match body with
  | .ok r => transcribeSuccess r ts
  | .error .timeout => transcribeTimeout
  | .error (.exn m) =>
    [("success", .bool false),
     ("error", .str ("Transcription failed: " ++ m)),
     ("text", .str "")]

/-- voice_server.py, transcribe_once tool (lines 115-196): engine lookup,
audio capture, backend dispatch, success payload; sr.WaitTimeoutError from
capture is answered with the timeout payload, any other exception with the
generic failure payload. -/
def transcribe_once (getEngine : Except String MultiEngine)
    (capture : CaptureOutcome)
    (rec : RecognitionBackend → Except String RecognitionResult)
    (backend : Option String) (ts : String) : JObject :=
  transcribeDispatch
    ((exnify getEngine).bind (fun me =>
      (captureExcept capture).bind (fun _ => transcribeCore me rec backend))) ts

/-!
Concrete instances used by witnesses and counterexamples.
-/

/-- A result attributed to the Google backend. -/
def resB : RecognitionResult := ⟨"hello world", 9/10, RecognitionBackend.google, 1/2, none⟩

/-- A coordinator with ElevenLabs configured as primary and Google as
fallback, both registered. -/
def meW : MultiEngine :=
  ⟨[(RecognitionBackend.elevenlabs, ⟨true, "ElevenLabsEngine"⟩),
    (RecognitionBackend.google, ⟨true, "GoogleEngine"⟩)],
   some RecognitionBackend.elevenlabs, some RecognitionBackend.google⟩

/-- Recognition outcomes where the primary (ElevenLabs) raises and the
fallback (Google) succeeds. -/
def recW : RecognitionBackend → Except String RecognitionResult
  | .google => .ok resB
  | _ => .error "boom"

/-- A coordinator whose configured primary and fallback are the same
registered backend. -/
def meX : MultiEngine :=
  ⟨[(RecognitionBackend.google, ⟨true, "GoogleEngine"⟩)],
   some RecognitionBackend.google, some RecognitionBackend.google⟩

/-- Recognition outcomes where every backend raises. -/
def recX : RecognitionBackend → Except String RecognitionResult :=
  fun _ => .error "network down"

/-- A fully provisioned environment. -/
def envW : Env := ⟨some "key123", true, true, none, none⟩

/-- The successful result carried by a coordinator outcome, if any. -/
def exceptToOpt : Except String RecognitionResult → Option RecognitionResult
  | .ok r => some r
  | .error _ => none

/-!
Helper lemmas: the phased coordinator is first-success execution over the
explicit candidate list.
-/

lemma runAttempts_append (rec : RecognitionBackend → Except String RecognitionResult)
    (l₁ l₂ : List RecognitionBackend) :
    runAttempts rec (l₁ ++ l₂) =
      match (runAttempts rec l₁).2 with
      | .ok _ => runAttempts rec l₁
      | .error _ =>
        ((runAttempts rec l₁).1 ++ (runAttempts rec l₂).1, (runAttempts rec l₂).2) := by
  induction l₁ with
  | nil => simp [runAttempts]
  | cons b rest ih =>
    cases hb : rec b with
    | ok r => simp [runAttempts, hb]
    | error e =>
      simp only [List.cons_append, runAttempts, hb, List.append_eq]
      rw [ih]
      cases h2 : (runAttempts rec rest).2 <;> simp [h2]

lemma tryConfigured_eq (engines : List (RecognitionBackend × Engine))
    (rec : RecognitionBackend → Except String RecognitionResult)
    (cand : Option RecognitionBackend) :
    tryConfigured engines rec cand =
      ((runAttempts rec (confSeg engines cand)).1,
        exceptToOpt (runAttempts rec (confSeg engines cand)).2) := by
  cases cand with
  | none => rfl
  | some b =>
    by_cases h : (engines.lookup b).isSome
    · simp only [tryConfigured, confSeg, if_pos h]
      cases hb : rec b <;> simp [runAttempts, hb, exceptToOpt]
    · simp [tryConfigured, confSeg, if_neg h, runAttempts, exceptToOpt]

lemma tryRemaining_eq (p f : Option RecognitionBackend)
    (rec : RecognitionBackend → Except String RecognitionResult)
    (l : List (RecognitionBackend × Engine)) :
    tryRemaining p f rec l =
      ((runAttempts rec (remSeg p f l)).1,
        exceptToOpt (runAttempts rec (remSeg p f l)).2) := by
  induction l with
  | nil => rfl
  | cons pe rest ih =>
    obtain ⟨b, e⟩ := pe
    by_cases h : p = some b ∨ f = some b
    · have hc : (p == some b || f == some b) = true := by
        rcases h with h | h <;> simp [h]
      have h1 : tryRemaining p f rec ((b, e) :: rest) = tryRemaining p f rec rest := by
        simp [tryRemaining, hc]
      have h2 : remSeg p f ((b, e) :: rest) = remSeg p f rest := by
        rcases h with h | h <;> simp [remSeg, List.filter_cons, h]
      rw [h1, h2, ih]
    · rcases not_or.mp h with ⟨hp, hf⟩
      have hcp : (p == some b) = false := beq_eq_false_iff_ne.mpr hp
      have hcf : (f == some b) = false := beq_eq_false_iff_ne.mpr hf
      have h2 : remSeg p f ((b, e) :: rest) = b :: remSeg p f rest := by
        simp [remSeg, List.filter_cons, hcp, hcf]
      rw [h2]
      cases hb : rec b with
      | ok r =>
        have h1 : tryRemaining p f rec ((b, e) :: rest) = ([b], some r) := by
          simp [tryRemaining, hcp, hcf, hb]
        have h3 : runAttempts rec (b :: remSeg p f rest) = ([b], Except.ok r) := by
          simp [runAttempts, hb]
        rw [h1, h3]
        rfl
      | error e2 =>
        have h1 : tryRemaining p f rec ((b, e) :: rest) =
            (b :: (tryRemaining p f rec rest).1, (tryRemaining p f rec rest).2) := by
          simp [tryRemaining, hcp, hcf, hb]
        have h3 : runAttempts rec (b :: remSeg p f rest) =
            (b :: (runAttempts rec (remSeg p f rest)).1,
              (runAttempts rec (remSeg p f rest)).2) := by
          simp [runAttempts, hb]
        rw [h1, h3, ih]

lemma runAttempts_error_val (rec : RecognitionBackend → Except String RecognitionResult)
    (l : List RecognitionBackend) (s : String)
    (h : (runAttempts rec l).2 = Except.error s) :
    s = "All recognition engines failed" := by
  induction l with
  | nil =>
    simp [runAttempts] at h
    exact h.symm
  | cons b rest ih =>
    cases hb : rec b with
    | ok r => simp [runAttempts, hb] at h
    | error e =>
      simp only [runAttempts, hb] at h
      exact ih h

lemma trace_eq_run (me : MultiEngine)
    (rec : RecognitionBackend → Except String RecognitionResult) :
    recognizeWithFallbackTrace me rec = runAttempts rec (candidateOrder me) := by
  unfold recognizeWithFallbackTrace candidateOrder
  rw [tryConfigured_eq, tryConfigured_eq, tryRemaining_eq, runAttempts_append,
    runAttempts_append]
  cases h1 : (runAttempts rec (confSeg me.engines me.primary)).2 with
  | ok r =>
    simp only [h1, exceptToOpt]
    exact Prod.ext rfl h1.symm
  | error s1 =>
    simp only [h1, exceptToOpt]
    cases h2 : (runAttempts rec (confSeg me.engines me.fallback)).2 with
    | ok r =>
      simp only [h2, exceptToOpt]
    | error s2 =>
      simp only [h2, exceptToOpt]
      cases h3 : (runAttempts rec
          (remSeg me.primary me.fallback me.engines)).2 with
      | ok r =>
        simp only [h3, exceptToOpt]
        exact Prod.ext (by simp) rfl
      | error s3 =>
        simp only [h3, exceptToOpt]
        refine Prod.ext (by simp) ?_
        simp [runAttempts_error_val rec _ s3 h3]

lemma runAttempts_snd_error_iff (rec : RecognitionBackend → Except String RecognitionResult)
    (l : List RecognitionBackend) :
    (runAttempts rec l).2 = Except.error "All recognition engines failed" ↔
      ∀ b ∈ l, recFails (rec b) = true := by
  induction l with
  | nil => simp [runAttempts]
  | cons b rest ih =>
    cases hb : rec b with
    | ok r => simp [runAttempts, hb, recFails]
    | error e => simp [runAttempts, hb, recFails, ih]

lemma runAttempts_fst_sublist (rec : RecognitionBackend → Except String RecognitionResult)
    (l : List RecognitionBackend) : List.Sublist (runAttempts rec l).1 l := by
  induction l with
  | nil => simp [runAttempts]
  | cons b rest ih =>
    cases hb : rec b with
    | ok r =>
      simp [runAttempts, hb]
    | error e =>
      simp only [runAttempts, hb]
      exact List.Sublist.cons₂ b ih

lemma runAttempts_first (rec : RecognitionBackend → Except String RecognitionResult)
    (l₂ : List RecognitionBackend) (b : RecognitionBackend) (r : RecognitionResult)
    (hok : rec b = Except.ok r) :
    ∀ l₁, (∀ x ∈ l₁, recFails (rec x) = true) →
      (runAttempts rec (l₁ ++ b :: l₂)).2 = Except.ok r := by
  intro l₁
  induction l₁ with
  | nil => intro _; simp [runAttempts, hok]
  | cons x xs ih =>
    intro hall
    have hx : recFails (rec x) = true := hall x (List.mem_cons_self x xs)
    cases hxv : rec x with
    | ok rr => rw [hxv] at hx; simp [recFails] at hx
    | error e =>
      simp only [List.cons_append, runAttempts, hxv]
      exact ih (fun y hy => hall y (List.mem_cons_of_mem x hy))

lemma lookup_isSome_iff_mem (engines : List (RecognitionBackend × Engine))
    (b : RecognitionBackend) :
    (engines.lookup b).isSome = true ↔ b ∈ engines.map Prod.fst := by
  rw [List.lookup_isSome_iff]
  simp only [List.mem_map, beq_iff_eq]
  constructor
  · rintro ⟨p, hp, he⟩
    exact ⟨p, hp, he.symm⟩
  · rintro ⟨p, hp, he⟩
    exact ⟨p, hp, he.symm⟩

lemma mem_confSeg (engines : List (RecognitionBackend × Engine))
    (cand : Option RecognitionBackend) (b : RecognitionBackend) :
    b ∈ confSeg engines cand ↔ cand = some b ∧ (engines.lookup b).isSome = true := by
  cases cand with
  | none => simp [confSeg]
  | some p =>
    by_cases h : (engines.lookup p).isSome
    · simp only [confSeg, if_pos h, List.mem_singleton]
      constructor
      · rintro rfl
        exact ⟨rfl, h⟩
      · rintro ⟨he, _⟩
        exact (Option.some.inj he).symm
    · simp only [confSeg, if_neg h, List.not_mem_nil, false_iff, not_and]
      intro he hs
      have hpb : p = b := Option.some.inj he
      subst hpb
      exact h hs

lemma mem_remSeg (p f : Option RecognitionBackend)
    (engines : List (RecognitionBackend × Engine)) (b : RecognitionBackend) :
    b ∈ remSeg p f engines ↔
      b ∈ engines.map Prod.fst ∧ p ≠ some b ∧ f ≠ some b := by
  simp [remSeg, List.mem_filter]

lemma mem_candidateOrder_iff (me : MultiEngine) (b : RecognitionBackend) :
    b ∈ candidateOrder me ↔ b ∈ me.backends := by
  unfold candidateOrder MultiEngine.backends
  simp only [List.mem_append, mem_confSeg, mem_remSeg]
  constructor
  · rintro (⟨hp, hs⟩ | ⟨hf, hs⟩ | ⟨hm, -, -⟩)
    · exact (lookup_isSome_iff_mem me.engines b).mp hs
    · exact (lookup_isSome_iff_mem me.engines b).mp hs
    · exact hm
  · intro hm
    by_cases hp : me.primary = some b
    · exact Or.inl ⟨hp, (lookup_isSome_iff_mem me.engines b).mpr hm⟩
    · by_cases hf : me.fallback = some b
      · exact Or.inr (Or.inl ⟨hf, (lookup_isSome_iff_mem me.engines b).mpr hm⟩)
      · exact Or.inr (Or.inr ⟨hm, hp, hf⟩)

lemma confSeg_length_le (engines : List (RecognitionBackend × Engine))
    (cand : Option RecognitionBackend) : (confSeg engines cand).length ≤ 1 := by
  cases cand with
  | none => simp [confSeg]
  | some p =>
    by_cases h : (engines.lookup p).isSome <;> simp [confSeg, h]

lemma count_candidateOrder_le_two (me : MultiEngine) (b : RecognitionBackend)
    (hp : me.primary = some b) :
    (candidateOrder me).count b ≤ 2 := by
  unfold candidateOrder
  rw [List.count_append, List.count_append]
  have h1 : (confSeg me.engines me.primary).count b ≤ 1 :=
    le_trans (List.count_le_length b _) (confSeg_length_le me.engines me.primary)
  have h2 : (confSeg me.engines me.fallback).count b ≤ 1 :=
    le_trans (List.count_le_length b _) (confSeg_length_le me.engines me.fallback)
  have h3 : (remSeg me.primary me.fallback me.engines).count b = 0 := by
    apply List.count_eq_zero.mpr
    intro hmem
    exact ((mem_remSeg me.primary me.fallback me.engines b).mp hmem).2.1 hp
  omega

lemma value_inj (a b : RecognitionBackend) (h : a.value = b.value) : a = b := by
  revert h
  cases a <;> cases b <;> intro h <;> first
  | rfl
  | exact absurd h (by decide)

/-!
Claims: the fallback coordinator.
-/

/-- C4. For every availability mapping, recognize_with_fallback attempts
backends in exactly the candidate order: the configured primary if set and
present in the mapping, then the configured fallback if set and present,
then every remaining mapping key in iteration order skipping keys equal to
the primary or the fallback; both the invocation trace and the outcome are
those of first-success execution over that candidate list. -/
theorem fv_c4 (me : MultiEngine)
    (rec : RecognitionBackend → Except String RecognitionResult) :
    recognizeWithFallbackTrace me rec = runAttempts rec (candidateOrder me) :=
  trace_eq_run me rec

/-- C1. recognize_with_fallback returns the result of the earliest candidate
in the attempt order whose recognize call succeeds; exceptions of all
earlier candidates are swallowed and the coordinator proceeds. -/
theorem fv_c1 (me : MultiEngine)
    (rec : RecognitionBackend → Except String RecognitionResult)
    (l₁ : List RecognitionBackend) (b : RecognitionBackend)
    (l₂ : List RecognitionBackend) (r : RecognitionResult)
    (hsplit : candidateOrder me = l₁ ++ b :: l₂)
    (hfail : ∀ x ∈ l₁, recFails (rec x) = true)
    (hok : rec b = Except.ok r) :
    me.recognize_with_fallback rec = Except.ok r := by
  unfold MultiEngine.recognize_with_fallback
  rw [trace_eq_run, hsplit]
  exact runAttempts_first rec l₂ b r hok l₁ hfail

/-- C1 witness: with primary ElevenLabs failing and fallback Google
succeeding, the coordinator returns Google's result. -/
theorem fv_c1_witness :
    candidateOrder meW = [RecognitionBackend.elevenlabs] ++ RecognitionBackend.google :: [] ∧
    (∀ x ∈ [RecognitionBackend.elevenlabs], recFails (recW x) = true) ∧
    recW RecognitionBackend.google = Except.ok resB ∧
    meW.recognize_with_fallback recW = Except.ok resB :=
  ⟨by decide, by decide, rfl,
    fv_c1 meW recW [RecognitionBackend.elevenlabs] RecognitionBackend.google [] resB
      (by decide) (by decide) rfl⟩

/-- C3. recognize_with_fallback raises exactly when every registered backend
fails, and the only exception it ever raises is the single terminal error
"All recognition engines failed", which carries no backend-specific detail
and chains no per-backend exception. -/
theorem fv_c3 (me : MultiEngine)
    (rec : RecognitionBackend → Except String RecognitionResult) :
    (me.recognize_with_fallback rec = Except.error "All recognition engines failed" ↔
      ∀ b ∈ me.backends, recFails (rec b) = true) ∧
    ∀ s, me.recognize_with_fallback rec = Except.error s →
      s = "All recognition engines failed" := by
  constructor
  · unfold MultiEngine.recognize_with_fallback
    rw [trace_eq_run, runAttempts_snd_error_iff]
    constructor
    · intro h b hb
      exact h b ((mem_candidateOrder_iff me b).mpr hb)
    · intro h b hb
      exact h b ((mem_candidateOrder_iff me b).mp hb)
  · intro s hs
    unfold MultiEngine.recognize_with_fallback at hs
    rw [trace_eq_run] at hs
    exact runAttempts_error_val rec (candidateOrder me) s hs

/-- C3 witness: with a single registered backend that always fails, the
coordinator raises the terminal error. -/
theorem fv_c3_witness :
    meX.recognize_with_fallback recX = Except.error "All recognition engines failed" :=
  (fv_c3 meX recX).1.mpr (by decide)

/-- C2 counterexample: with primary = fallback = google registered and
failing, recognize is invoked twice on google in one call, refuting
"at most once". -/
theorem fv_c2_cex :
    ¬ ((fallbackAttempts meX recX).count RecognitionBackend.google ≤ 1) := by
  decide

/-- C2 amended: when the configured primary equals the configured fallback,
that backend's recognize is invoked at most twice per call (the fallback
phase is not skipped and repeats the backend when the primary attempt
fails; the remaining-engines phase still skips it). -/
theorem fv_c2_amended (me : MultiEngine)
    (rec : RecognitionBackend → Except String RecognitionResult)
    (b : RecognitionBackend)
    (hp : me.primary = some b) (hf : me.fallback = some b) :
    (fallbackAttempts me rec).count b ≤ 2 := by
  have hsub : List.Sublist (fallbackAttempts me rec) (candidateOrder me) := by
    unfold fallbackAttempts
    rw [trace_eq_run]
    exact runAttempts_fst_sublist rec (candidateOrder me)
  exact le_trans (hsub.count_le b) (count_candidateOrder_le_two me b hp)

/-- C2 amended witness: at primary = fallback = google with recognize
failing, the bound holds (and is attained: the count is exactly two). -/
theorem fv_c2_amended_witness :
    meX.primary = some RecognitionBackend.google ∧
    meX.fallback = some RecognitionBackend.google ∧
    (fallbackAttempts meX recX).count RecognitionBackend.google ≤ 2 :=
  ⟨rfl, rfl, fv_c2_amended meX recX RecognitionBackend.google rfl rfl⟩

/-!
Claims: construction-time invariants.
-/

/-- C7. After MultiEngine construction the availability mapping only holds
engines whose available flag is true (the mapping is pruned at startup);
no operation mutates the mapping afterwards, so the invariant is permanent. -/
theorem fv_c7 (env : Env) (b : RecognitionBackend) (e : Engine)
    (h : (b, e) ∈ (MultiEngine.ofEnv env).engines) : e.available = true := by
  simp only [MultiEngine.ofEnv] at h
  exact (List.mem_filter.mp h).2

/-- C7 witness: the always-available Google engine is in the mapping of a
fully provisioned environment, and it is available. -/
theorem fv_c7_witness :
    (RecognitionBackend.google, (⟨true, "GoogleEngine"⟩ : Engine)) ∈
      (MultiEngine.ofEnv envW).engines ∧
    (⟨true, "GoogleEngine"⟩ : Engine).available = true :=
  ⟨by decide, fv_c7 envW RecognitionBackend.google ⟨true, "GoogleEngine"⟩ (by decide)⟩

/-- C10. MultiEngine construction never fails on a misconfigured backend
name: a VOICE_BACKEND (or VOICE_FALLBACK) value whose lowercase form names
no enum member yields primary = None (fallback = None), and a None
candidate makes the corresponding phase of recognize_with_fallback perform
no attempt at all. -/
theorem fv_c10 (env : Env) (s t : String) :
    (backendOfString (pyLower s) = none →
      (MultiEngine.ofEnv { env with voice_backend := some s }).primary = none) ∧
    (backendOfString (pyLower t) = none →
      (MultiEngine.ofEnv { env with voice_fallback := some t }).fallback = none) ∧
    (∀ engines rec, tryConfigured engines rec none = ([], none)) := by
  refine ⟨?_, ?_, fun _ _ => rfl⟩
  · intro h
    simpa [MultiEngine.ofEnv] using h
  · intro h
    simpa [MultiEngine.ofEnv] using h

/-- C10 witness: the invalid backend name DeepGram resolves to None and the
primary phase is silently skipped. -/
theorem fv_c10_witness :
    backendOfString (pyLower "DeepGram") = none ∧
    (MultiEngine.ofEnv { envW with voice_backend := some "DeepGram" }).primary = none :=
  ⟨by decide, (fv_c10 envW "DeepGram" "DeepGram").1 (by decide)⟩

/-- C9. The availability mapping never contains the OPENAI_REALTIME member:
the constructor only ever registers the elevenlabs, google, and whisper
backends, so naming the fourth backend in transcribe_once can never be
served and yields the not-available failure payload. -/
theorem fv_c9 (env : Env) :
    RecognitionBackend.openai ∉ (MultiEngine.ofEnv env).backends ∧
    (MultiEngine.ofEnv env).engines.lookup RecognitionBackend.openai = none ∧
    ∀ rec ts, transcribe_once (Except.ok (MultiEngine.ofEnv env)) CaptureOutcome.ok rec
        (some "openai") ts =
      [("success", JValue.bool false),
       ("error", JValue.str ("Transcription failed: Backend " ++ pyQuote ++ "openai" ++
         pyQuote ++ " not available")),
       ("text", JValue.str "")] := by
  have hmem : RecognitionBackend.openai ∉ (MultiEngine.ofEnv env).backends := by
    intro h
    by_cases hk : strTruthy env.elevenlabs_api_key <;>
      simp [MultiEngine.ofEnv, MultiEngine.backends, hk, List.mem_filter] at h
  have hlk : (MultiEngine.ofEnv env).engines.lookup RecognitionBackend.openai = none := by
    rw [List.lookup_eq_none_iff]
    intro p hp
    simp only [bne_iff_ne]
    intro he
    apply hmem
    rw [he]
    exact List.mem_map_of_mem Prod.fst hp
  refine ⟨hmem, hlk, ?_⟩
  intro rec ts
  show transcribeDispatch
    (transcribeCore (MultiEngine.ofEnv env) rec (some "openai")) ts = _
  simp only [transcribeCore]
  rw [show pyLower "openai" = "openai" from by decide]
  rw [show backendOfString "openai" = some RecognitionBackend.openai from by decide]
  simp only [show ("openai".isEmpty) = false from by decide, Bool.false_eq_true, if_false,
    hlk, Option.isSome_none, transcribeDispatch]
  decide

/-!
Claims: the MCP tool layer.
-/

/-- C8. A capture timeout in transcribe_once yields the timeout payload:
success false, the timeout error message, empty text, and timeout true,
independently of the recognition outcomes (no backend is consulted). -/
theorem fv_c8 (me : MultiEngine)
    (rec : RecognitionBackend → Except String RecognitionResult)
    (b : Option String) (ts : String) :
    transcribe_once (Except.ok me) CaptureOutcome.waitTimeout rec b ts =
      [("success", JValue.bool false),
       ("error", JValue.str "No speech detected within timeout period"),
       ("text", JValue.str ""),
       ("timeout", JValue.bool true)] := rfl

/-- C6. On success, get_engine_status reports available_engines as exactly
the keys of the availability mapping (elementwise, hence as a set: no more,
no fewer), and the configured primary and fallback identifiers, null when
unset. -/
theorem fv_c6 (me : MultiEngine) (k : Option String) :
    (get_engine_status (Except.ok me) k).lookup "available_engines" =
      some (JValue.strList (me.backends.map RecognitionBackend.value)) ∧
    (∀ b : RecognitionBackend,
      b.value ∈ me.backends.map RecognitionBackend.value ↔ b ∈ me.backends) ∧
    (get_engine_status (Except.ok me) k).lookup "primary_engine" =
      some (optBackendJ me.primary) ∧
    (get_engine_status (Except.ok me) k).lookup "fallback_engine" =
      some (optBackendJ me.fallback) := by
  refine ⟨?_, ?_, rfl, rfl⟩
  · show some (JValue.strList (me.engines.map (fun p => p.1.value))) = _
    rw [MultiEngine.backends, List.map_map]
    rfl
  · intro b
    constructor
    · intro h
      rcases List.mem_map.mp h with ⟨b2, hb2, hv⟩
      rw [← value_inj b2 b hv]
      exact hb2
    · intro h
      exact List.mem_map_of_mem RecognitionBackend.value h

/-- C5 counterexample: on an internal exception, list_audio_devices returns
an error payload with no success key at all, refuting the uniform
"payload containing success: false" policy. -/
theorem fv_c5_cex :
    ¬ ((list_audio_devices (Except.error "boom") (Except.ok []) none).lookup "success" =
      some (JValue.bool false)) := by
  decide

/-- C5 amended: no tool ever propagates an exception; every tool returns a
structured payload. ping cannot fail; test_microphone, transcribe_once and
calibrate_audio answer every internal exception with success false plus an
error message; list_audio_devices and get_engine_status never emit a
success key and answer every internal exception with an error message and
empty defaults. -/
theorem fv_c5_amended :
    (∀ v, (ping v).lookup "ok" = some (JValue.bool true)) ∧
    (∀ gE mi pr d,
      (test_microphone gE mi pr d).lookup "success" = some (JValue.bool true) ∨
      ((test_microphone gE mi pr d).lookup "success" = some (JValue.bool false) ∧
        ∃ s, (test_microphone gE mi pr d).lookup "error" = some (JValue.str s))) ∧
    (∀ gE cap rec b ts,
      (transcribe_once gE cap rec b ts).lookup "success" = some (JValue.bool true) ∨
      ((transcribe_once gE cap rec b ts).lookup "success" = some (JValue.bool false) ∧
        ∃ s, (transcribe_once gE cap rec b ts).lookup "error" = some (JValue.str s))) ∧
    (∀ gE c a f d,
      (calibrate_audio gE c a f d).lookup "success" = some (JValue.bool true) ∨
      ((calibrate_audio gE c a f d).lookup "success" = some (JValue.bool false) ∧
        ∃ s, (calibrate_audio gE c a f d).lookup "error" = some (JValue.str s))) ∧
    (∀ gE mn di,
      (list_audio_devices gE mn di).lookup "success" = none ∧
      ((∃ ns, gE.bind (fun _ => mn) = Except.ok ns ∧
          (list_audio_devices gE mn di).lookup "error" = none) ∨
       (∃ e, gE.bind (fun _ => mn) = Except.error e ∧
          (list_audio_devices gE mn di).lookup "error" =
            some (JValue.str ("Failed to list audio devices: " ++ e))))) ∧
    (∀ gE k,
      (get_engine_status gE k).lookup "success" = none ∧
      ((∃ me, gE = Except.ok me ∧ (get_engine_status gE k).lookup "error" = none) ∨
       (∃ e, gE = Except.error e ∧
          (get_engine_status gE k).lookup "error" =
            some (JValue.str ("Failed to get engine status: " ++ e))))) := by
  refine ⟨fun v => rfl, ?_, ?_, ?_, ?_, ?_⟩
  · intro gE mi pr d
    cases gE with
    | error e =>
      exact Or.inr ⟨rfl, "Microphone test failed: " ++ e, rfl⟩
    | ok me =>
      cases pr with
      | ok th => exact Or.inl rfl
      | error e => exact Or.inr ⟨rfl, e, rfl⟩
  · intro gE cap rec b ts
    have hd : transcribe_once gE cap rec b ts =
        transcribeDispatch
          ((exnify gE).bind (fun me =>
            (captureExcept cap).bind (fun _ => transcribeCore me rec b))) ts := rfl
    cases hb : (exnify gE).bind (fun me =>
        (captureExcept cap).bind (fun _ => transcribeCore me rec b)) with
    | ok r =>
      rw [hd, hb]
      exact Or.inl rfl
    | error f =>
      cases f with
      | timeout =>
        rw [hd, hb]
        exact Or.inr ⟨rfl, "No speech detected within timeout period", rfl⟩
      | exn m =>
        rw [hd, hb]
        exact Or.inr ⟨rfl, "Transcription failed: " ++ m, rfl⟩
  · intro gE c a f d
    have hd : calibrate_audio gE c a f d =
        match gE.bind (fun _ => c.bind (fun _ => a)) with
        | .ok thr =>
          [("success", JValue.bool true),
           ("energy_threshold", JValue.num thr),
           ("duration", JValue.num d),
           ("message", JValue.str ("Microphone calibrated successfully (threshold: " ++
             f thr ++ ")"))]
        | .error e =>
          [("success", JValue.bool false),
           ("error", JValue.str ("Calibration failed: " ++ e))] := rfl
    cases hx : gE.bind (fun _ => c.bind (fun _ => a)) with
    | ok thr =>
      rw [hd, hx]
      exact Or.inl rfl
    | error e =>
      rw [hd, hx]
      exact Or.inr ⟨rfl, "Calibration failed: " ++ e, rfl⟩
  · intro gE mn di
    cases hx : gE.bind (fun _ => mn) with
    | ok names =>
      have hd : list_audio_devices gE mn di =
          [("devices", JValue.devList (list_available_microphones names di)),
           ("default_device",
             optNatJ (((list_available_microphones names di).find?
               (fun dv => dv.dflt)).map Device.index)),
           ("total_count", JValue.num (list_available_microphones names di).length)] := by
        unfold list_audio_devices
        rw [hx]
      rw [hd]
      exact ⟨rfl, Or.inl ⟨names, rfl, rfl⟩⟩
    | error e =>
      have hd : list_audio_devices gE mn di =
          [("error", JValue.str ("Failed to list audio devices: " ++ e)),
           ("devices", JValue.devList []),
           ("total_count", JValue.num 0)] := by
        unfold list_audio_devices
        rw [hx]
      rw [hd]
      exact ⟨rfl, Or.inr ⟨e, rfl, rfl⟩⟩
  · intro gE k
    cases gE with
    | ok me => exact ⟨rfl, Or.inl ⟨me, rfl, rfl⟩⟩
    | error e => exact ⟨rfl, Or.inr ⟨e, rfl, rfl⟩⟩
